import Mathlib

/-!
Verification development for the flood-model data collector
(`app/flood_dataset.py`).  The Python pipeline is shallowly embedded:
HTTP traffic is represented by response oracles passed to each fetcher,
the per-fetcher JSON cache files by explicit association lists threaded
through the calls, and the filesystem state of a cache file by a
`FileContent` value.  Each fetcher returns its result together with the
updated cache content and the number of external HTTP requests issued.
-/

namespace FloodData

/-- Numeric JSON values (Python floats) are modelled as rationals. -/
abbrev Val := ℚ

/-- A JSON-object cache file maps string keys to nullable numeric values
(`cache_data` in the Python code).  Modelled as an association list;
the most recent binding shadows older ones, like a `dict` update. -/
abbrev CacheMap := List (String × Option Val)

/-- Membership test plus read, as in `if cache_key in cache_data:
return cache_data[cache_key]`.  `some v` means the key is present with
stored (possibly null) value `v`. -/
def lookupCache : CacheMap → String → Option (Option Val)
  | [], _ => none
  | (k, v) :: rest, key => if k = key then some v else lookupCache rest key

/-- `cache_data[cache_key] = result` -/
def insertCache (m : CacheMap) (k : String) (v : Option Val) : CacheMap :=
  (k, v) :: m

/-- The on-disk state of one cache file: absent, present but
unparseable JSON, or present with parsed content `a`. -/
inductive FileContent (α : Type) where
  | missing
  | corrupt
  | valid (a : α)
deriving DecidableEq

/-- `load_cache` (flood_dataset.py lines 247-255): returns the parsed
content when the file exists and parses, and `{}` when the file is
missing or `json.load` raises. -/
def load_cache : FileContent CacheMap → CacheMap
  | .valid m => m
  | .missing => []
  | .corrupt => []

/-! ### Calendar dates

`datetime` values are modelled structurally; `timedelta(days=k)`
addition is day-by-day Gregorian successor iteration. -/

structure Date where
  year : ℕ
  month : ℕ
  day : ℕ
deriving DecidableEq

def isLeap (y : ℕ) : Bool :=
  y % 4 = 0 && (y % 100 ≠ 0 || y % 400 = 0)

def daysInMonth (y m : ℕ) : ℕ :=
  if m = 2 then (if isLeap y then 29 else 28)
  else if m = 4 ∨ m = 6 ∨ m = 9 ∨ m = 11 then 30
  else 31

def nextDay (d : Date) : Date :=
  if d.day < daysInMonth d.year d.month then ⟨d.year, d.month, d.day + 1⟩
  else if d.month < 12 then ⟨d.year, d.month + 1, 1⟩
  else ⟨d.year + 1, 1, 1⟩

/-- `date + timedelta(days=k)` -/
def addDays (d : Date) : ℕ → Date
  | 0 => d
  | k + 1 => nextDay (addDays d k)

def pad2 (n : ℕ) : String :=
  if n < 10 then "0" ++ toString n else toString n

def pad4 (n : ℕ) : String :=
  if n < 10 then "000" ++ toString n
  else if n < 100 then "00" ++ toString n
  else if n < 1000 then "0" ++ toString n
  else toString n

/-- `date.strftime("%Y-%m-%d")` -/
def isoDate (d : Date) : String :=
  pad4 d.year ++ "-" ++ pad2 d.month ++ "-" ++ pad2 d.day

def digitVal (c : Char) : ℕ := c.toNat - 48

/-- `datetime.strptime(s, "%Y-%m-%d")`: exactly ten characters
`YYYY-MM-DD`, with the month/day ranges `datetime` itself enforces
(month 1-12, day 1-days-in-month, year at least 1). -/
def parseDate (s : String) : Option Date :=
  match s.toList with
  | [y1, y2, y3, y4, h1, m1, m2, h2, d1, d2] =>
    if y1.isDigit ∧ y2.isDigit ∧ y3.isDigit ∧ y4.isDigit ∧ h1 = '-' ∧
        m1.isDigit ∧ m2.isDigit ∧ h2 = '-' ∧ d1.isDigit ∧ d2.isDigit then
      let y := 1000 * digitVal y1 + 100 * digitVal y2 + 10 * digitVal y3 + digitVal y4
      let mo := 10 * digitVal m1 + digitVal m2
      let da := 10 * digitVal d1 + digitVal d2
      if 1 ≤ y ∧ 1 ≤ mo ∧ mo ≤ 12 ∧ 1 ≤ da ∧ da ≤ daysInMonth y mo then
        some ⟨y, mo, da⟩
      else none
    else none
  | _ => none

/-! ### Cache keys -/

/-- `f"{x:.4f}"`: fixed-point rendering with four decimals, computed on
the numerator and denominator so that `n` is
`floor(|q| * 10000 + 1/2)`. -/
def fmt4 (q : ℚ) : String :=
  let n : ℕ := (2 * q.num.natAbs * 10000 + q.den) / (2 * q.den)
  (if q.num < 0 then "-" else "") ++ toString (n / 10000) ++ "." ++ pad4 (n % 10000)

/-- `f"{lat:.4f},{lon:.4f},{date.strftime('%Y-%m-%d')}"` -/
def precip_key (lat lon : ℚ) (date : Date) : String :=
  fmt4 lat ++ "," ++ fmt4 lon ++ "," ++ isoDate date

/-- `f"{lat:.4f},{lon:.4f}"` -/
def elev_key (lat lon : ℚ) : String :=
  fmt4 lat ++ "," ++ fmt4 lon

/-- `f"{station_id},{date.strftime('%Y-%m-%d')}"` -/
def gage_key (sid : String) (date : Date) : String :=
  sid ++ "," ++ isoDate date

/-! ### Enrichment fetchers

Each fetcher makes at most two HTTP requests per call (the original
one plus at most one retry after a 429), so its network interaction is
captured by two oracle responses.  The returned triple is
(result, cache content after the call, number of HTTP requests made). -/

/-- Outcome of one `requests.get` + `raise_for_status` + parse in
`get_usgs_gage_height`: a parsed GeoJSON feature list (each feature
contributing its nullable `properties["value"]`), an HTTPError whose
text contains "429", any other HTTPError, or any other exception
(connection failure, JSON decode error, ...). -/
inductive GageResp where
  | ok (features : List (Option Val))
  | err429
  | errHTTP
  | exn
deriving DecidableEq

/-- `features[0]["properties"].get("value")` when the feature list is
nonempty, else no value. -/
def headValue : List (Option Val) → Option Val
  | [] => none
  | f :: _ => f

/-- `not station_id` in Python: true for `None` and for `""`. -/
def isFalsy : Option String → Bool
  | none => true
  | some s => s = ""

/-- `get_usgs_gage_height` (flood_dataset.py lines 164-244).
Falsy station id returns `None` before any cache or network access;
a cache hit returns the stored (possibly null) value; otherwise the
request runs, a 429 is retried once, any failure returns `None`
*without touching the cache*, and only a successfully parsed response
(with or without a value) is written back to the cache. -/
def get_usgs_gage_height (station_id : Option String) (date : Date)
    (cache : CacheMap) (resp1 resp2 : GageResp) : Option Val × CacheMap × ℕ :=
  if isFalsy station_id then (none, cache, 0)
  else
    let key := gage_key (station_id.getD "") date
    match lookupCache cache key with
    | some v => (v, cache, 0)
    | none =>
      match resp1 with
      | .ok fs => (headValue fs, insertCache cache key (headValue fs), 1)
      | .err429 =>
        match resp2 with
        | .ok fs => (headValue fs, insertCache cache key (headValue fs), 2)
        | _ => (none, cache, 2)
      | .errHTTP => (none, cache, 1)
      | .exn => (none, cache, 1)

/-- Outcome of one `requests.get` in `get_precipitation`: either a
response with a status code and — relevant only for status 200 — an
optional parsed `"results"` list (`none` models a 200 body on which
`r.json()`/item access raises; a missing `"results"` key is the
defaulted `some []`), or an exception raised by `requests.get`. -/
inductive PrecipResp where
  | resp (code : ℕ) (results : Option (List Val))
  | exn
deriving DecidableEq

/-- `sum(item["value"] for item in data)` -/
def listSum (l : List Val) : Val := l.foldr (· + ·) 0

/-- Tail of `get_precipitation` after the final response is known
(status dispatch at flood_dataset.py lines 299-313): a 200 with a
parseable body caches and returns the sum; a 200 whose body raises
returns `None` uncached; any other final status (including a second
429) logs, caches null and returns `None`. -/
def precipFinish (cache : CacheMap) (key : String) (code : ℕ)
    (body : Option (List Val)) (n : ℕ) : Option Val × CacheMap × ℕ :=
  if code = 200 then
    match body with
    | none => (none, cache, n)
    | some rs => (some (listSum rs), insertCache cache key (some (listSum rs)), n)
  else (none, insertCache cache key none, n)

/-- `get_precipitation` (flood_dataset.py lines 266-313). -/
def get_precipitation (lat lon : ℚ) (date : Date) (cache : CacheMap)
    (resp1 resp2 : PrecipResp) : Option Val × CacheMap × ℕ :=
  let key := precip_key lat lon date
  match lookupCache cache key with
  | some v => (v, cache, 0)
  | none =>
    match resp1 with
    | .exn => (none, cache, 1)
    | .resp c1 b1 =>
      if c1 = 429 then
        match resp2 with
        | .exn => (none, cache, 2)
        | .resp c2 b2 => precipFinish cache key c2 b2 2
      else precipFinish cache key c1 b1 1

/-- Body of a status-200 elevation response: it carries a `"value"`
field (possibly JSON null), an `"elevation"` field, neither (the
"unexpected format" branch), or fails to parse at all. -/
inductive ElevBody where
  | value (v : Option Val)
  | elevation (v : Option Val)
  | other
  | badJson
deriving DecidableEq

/-- Outcome of one `requests.get` in `get_elevation`. -/
inductive ElevResp where
  | resp (code : ℕ) (body : ElevBody)
  | exn
deriving DecidableEq

/-- Tail of `get_elevation` after the final response is known
(flood_dataset.py lines 340-361): a 200 carrying either value field
caches and returns it (even when the field is null); a 200 with an
unexpected or unparseable body returns `None` uncached; any other
final status caches null and returns `None`. -/
def elevFinish (cache : CacheMap) (key : String) (code : ℕ)
    (body : ElevBody) (n : ℕ) : Option Val × CacheMap × ℕ :=
  if code = 200 then
    match body with
    | .value v => (v, insertCache cache key v, n)
    | .elevation v => (v, insertCache cache key v, n)
    | .other => (none, cache, n)
    | .badJson => (none, cache, n)
  else (none, insertCache cache key none, n)

/-- `get_elevation` (flood_dataset.py lines 316-361). -/
def get_elevation (lat lon : ℚ) (cache : CacheMap)
    (resp1 resp2 : ElevResp) : Option Val × CacheMap × ℕ :=
  let key := elev_key lat lon
  match lookupCache cache key with
  | some v => (v, cache, 0)
  | none =>
    match resp1 with
    | .exn => (none, cache, 1)
    | .resp c1 b1 =>
      if c1 = 429 then
        match resp2 with
        | .exn => (none, cache, 2)
        | .resp c2 b2 => elevFinish cache key c2 b2 2
      else elevFinish cache key c1 b1 1

/-! ### Stations and the nearest-station scan -/

/-- `math.radians(x)` -/
noncomputable def radians (x : ℝ) : ℝ := x * (Real.pi / 180)

/-- The intermediate `a` of `haversine` (flood_dataset.py lines 52-57). -/
noncomputable def haversineA (lat1 lon1 lat2 lon2 : ℝ) : ℝ :=
  Real.sin (radians (lat2 - lat1) / 2) ^ 2 +
    Real.cos (radians lat1) * Real.cos (radians lat2) *
      Real.sin (radians (lon2 - lon1) / 2) ^ 2

/-- `haversine` (flood_dataset.py lines 48-58), with `R = 6371`. -/
noncomputable def haversine (lat1 lon1 lat2 lon2 : ℝ) : ℝ :=
  2 * 6371 * Real.arcsin (Real.sqrt (haversineA lat1 lon1 lat2 lon2))

/-- One entry of `USGS_STATIONS`. -/
structure Station where
  id : String
  lat : ℝ
  lon : ℝ

/-- `haversine(lat, lon, station["lat"], station["lon"])` -/
noncomputable def hdist (lat lon : ℝ) (s : Station) : ℝ :=
  haversine lat lon s.lat s.lon

def MAX_DISTANCE_KM : ℝ := 25

open Classical in
/-- The scan loop of `find_nearest_usgs_station` with running state
`(min_dist, nearest)`. -/
noncomputable def find_nearest_aux (lat lon : ℝ) :
    List Station → ℝ → Option String → Option String
  | [], _, nearest => nearest
  | station :: rest, min_dist, nearest =>
    if hdist lat lon station < min_dist then
      find_nearest_aux lat lon rest (hdist lat lon station) (some station.id)
    else
      find_nearest_aux lat lon rest min_dist nearest

/-- `find_nearest_usgs_station` (flood_dataset.py lines 154-162), with
the global `USGS_STATIONS` list passed explicitly. -/
noncomputable def find_nearest_usgs_station (stations : List Station)
    (lat lon : ℝ) : Option String :=
  find_nearest_aux lat lon stations MAX_DISTANCE_KM none

/-! ### Historical flood alerts -/

/-- Geometry attached to an alert (only present in externally supplied
cache files; the IEM fetch path always stores `None`). -/
inductive Geom where
  | point (lat lon : ℚ)
  | polygon (ring : List (ℚ × ℚ))
deriving DecidableEq

/-- One event from the IEM `vtec_events` response.  A field is `none`
when the corresponding JSON key is missing (or null, where the code
paths under study treat the two alike, e.g. `event["issue"]`). -/
structure IEMEvent where
  issue : Option String
  locations : Option String
  ph_name : Option String
  sig_name : Option String
  area : Option Val
deriving DecidableEq

/-- The alert dictionary built at flood_dataset.py lines 458-470
(flattening the nested `properties` dict into fields). -/
structure Alert where
  event : String
  areaDesc : String
  severity : String
  certainty : String
  urgency : String
  onset : Option String
  geometry : Option Geom
  issue_timestamp : Option String
  area_sq_miles : Val
deriving DecidableEq

/-- Alert construction from an IEM event (lines 458-470). -/
def mkAlert (e : IEMEvent) (locations : String) : Alert where
  event := (e.ph_name.getD "Flood") ++ " " ++ (e.sig_name.getD "Warning")
  areaDesc := locations
  severity := e.sig_name.getD "Warning"
  certainty := "Observed"
  urgency := "Past"
  onset := e.issue
  geometry := none
  issue_timestamp := e.issue
  area_sq_miles := e.area.getD 0

def isPrefixList : List Char → List Char → Bool
  | [], _ => true
  | _ :: _, [] => false
  | a :: as, b :: bs => a = b && isPrefixList as bs

def containsSub : List Char → List Char → Bool
  | [], needle => isPrefixList needle []
  | h :: t, needle => isPrefixList needle (h :: t) || containsSub t needle

/-- Python's substring test `needle in hay`. -/
def strContains (hay needle : String) : Bool :=
  containsSub hay.toList needle.toList

/-- The `state_wfos` table (flood_dataset.py lines 371-386). -/
def state_wfos : List (String × List String) :=
  [("Texas", ["EWX", "FWD", "HGX", "SJT", "LUB", "AMA", "CRP", "BRO", "EPZ"]),
   ("California", ["LOX", "SGX", "OXR", "MTR", "STO", "HNX", "EKA", "REV"]),
   ("Florida", ["MFL", "TBW", "MLB", "JAX", "TAE", "KEY"]),
   ("Louisiana", ["LIX", "SHV", "LCH"]),
   ("Georgia", ["FFC"]),
   ("South Carolina", ["CHS"]),
   ("North Carolina", ["RAH"]),
   ("Virginia", ["LWX"]),
   ("Illinois", ["LOT"]),
   ("Indiana", ["IND"]),
   ("Kentucky", ["JKL"]),
   ("Tennessee", ["MEG"]),
   ("Alabama", ["BMX"]),
   ("Arkansas", ["LZK"])]

/-- The `state_abbrevs` table (flood_dataset.py lines 447-452). -/
def state_abbrevs : List (String × String) :=
  [("Texas", "TX"), ("California", "CA"), ("Florida", "FL"),
   ("Louisiana", "LA"), ("Georgia", "GA"), ("South Carolina", "SC"),
   ("North Carolina", "NC"), ("Virginia", "VA"), ("Illinois", "IL"),
   ("Indiana", "IN"), ("Kentucky", "KY"), ("Tennessee", "TN"),
   ("Alabama", "AL"), ("Arkansas", "AR")]

/-- Office selection (lines 389-395): the target state's offices when
the target is set and known, otherwise the flattened nationwide list. -/
def wfos_for (target : Option String) : List String :=
  match target with
  | some st =>
    match state_wfos.lookup st with
    | some l => l
    | none => state_wfos.flatMap (fun p => p.2)
  | none => state_wfos.flatMap (fun p => p.2)

/-- Per-event processing (flood_dataset.py lines 432-475): any failure
while reading or parsing `event["issue"]` skips the event (the
per-event `except`), a month mismatch skips it, the state filter skips
it, and otherwise the alert dictionary is built.  Returns `none` for a
skipped event. -/
def processEvent (month : ℕ) (target : Option String) (e : IEMEvent) :
    Option Alert :=
  match e.issue with
  | none => none
  | some istr =>
    match parseDate (istr.take 10) with
    | none => none
    | some d =>
      if d.month ≠ month then none
      else
        let locations := e.locations.getD ""
        match target with
        | none => some (mkAlert e locations)
        | some st =>
          let ab := (state_abbrevs.lookup st).getD st
          if ¬ strContains locations ("[" ++ ab ++ "]") ∧
              ¬ strContains locations st then none
          else some (mkAlert e locations)

/-- Outcome of one `requests.get` + `raise_for_status` + parse against
the IEM endpoint: a parsed event list, an HTTPError containing "429",
or any other failure. -/
inductive IEMResp where
  | ok (events : List IEMEvent)
  | err429
  | err
deriving DecidableEq

/-- Events obtained from one office, given its response and the
response to the single retry performed after a 429; a persistent
failure contributes no events (`continue`). -/
def eventsOf : IEMResp × IEMResp → List IEMEvent
  | (.ok es, _) => es
  | (.err429, .ok es) => es
  | (.err429, _) => []
  | (.err, _) => []

/-- HTTP requests issued for one office: two when the first response
is a 429 (the retry always fires), otherwise one. -/
def reqCount : IEMResp × IEMResp → ℕ
  | (.err429, _) => 2
  | _ => 1

/-- `fetch_historical_flood_alerts` (flood_dataset.py lines 364-483).
`file` is the content of this (year, month)'s cache file; the network
is an oracle from office code to its (response, retry response) pair.
Returns the alert list, the cache-file content after the call, and the
number of HTTP requests issued.  The cache-file read at lines 366-368
is *not* wrapped in try/except, so an existing-but-unparseable file
raises `json.JSONDecodeError` out of the function, modelled as
`.error`.  The `year` argument only feeds the outgoing request. -/
def fetch_historical_flood_alerts (target : Option String) (year month : ℕ)
    (file : FileContent (List Alert)) (oracle : String → IEMResp × IEMResp) :
    Except String (List Alert × FileContent (List Alert) × ℕ) :=
  match file with
  | .valid l => .ok (l, .valid l, 0)
  | .corrupt => .error "json.decoder.JSONDecodeError"
  | .missing =>
    let _ := year
    let wfos := wfos_for target
    let alerts := wfos.flatMap
      (fun w => (eventsOf (oracle w)).filterMap (processEvent month target))
    .ok (alerts, .valid alerts, (wfos.map (fun w => reqCount (oracle w))).sum)

/-! ### Dataset records -/

/-- One output row of `build_dataset`. -/
structure Record where
  year : ℕ
  month : ℕ
  lat : ℚ
  lon : ℚ
  event : String
  area : String
  severity : String
  certainty : String
  urgency : String
  precip_24h_mm : Option Val
  elevation_m : Option Val
  usgs_station_id : Option String
  usgs_gage_height_ft : Option Val
  flood_occurred : ℕ
deriving DecidableEq

/-- The positive record built at flood_dataset.py lines 563-578, for
the loop iteration (`year`, `month`), an alert with centroid
(`lat`, `lon`), and the enrichment results. -/
def positive_record (year month : ℕ) (lat lon : ℚ) (alert : Alert)
    (precip elev : Option Val) (station_id : Option String)
    (gage : Option Val) : Record where
  year := year
  month := month
  lat := lat
  lon := lon
  event := alert.event
  area := alert.areaDesc
  severity := alert.severity
  certainty := alert.certainty
  urgency := alert.urgency
  precip_24h_mm := precip
  elevation_m := elev
  usgs_station_id := station_id
  usgs_gage_height_ft := gage
  flood_occurred := 1

/-- The negative-sample construction at flood_dataset.py lines 589-617:
`du`/`dv` are the two `uniform(-0.5, 0.5)` draws, `k` the
`randint(1, 28)` draw.  Returns the record together with the perturbed
date `neg_date` that is passed to the enrichment fetchers. -/
def negative_sample (lat lon : ℚ) (start_date : Date) (du dv : ℚ) (k : ℕ)
    (precip elev : Option Val) (station_id : Option String)
    (gage : Option Val) : Record × Date :=
  let neg_lat := lat + du
  let neg_lon := lon + dv
  let neg_date := addDays start_date k
  ({ year := neg_date.year
     month := neg_date.month
     lat := neg_lat
     lon := neg_lon
     event := "None"
     area := "None"
     severity := "None"
     certainty := "None"
     urgency := "None"
     precip_24h_mm := precip
     elevation_m := elev
     usgs_station_id := station_id
     usgs_gage_height_ft := gage
     flood_occurred := 0 }, neg_date)

/-! ### Concrete sample data used in witnesses and counterexamples -/

/-- A well-formed IEM event issued 2023-06-15 in Fulton County, GA. -/
def sampleEvent : IEMEvent where
  issue := some "2023-06-15T12:00:00Z"
  locations := some "Fulton [GA]"
  ph_name := some "Flood"
  sig_name := some "Warning"
  area := some 12

/-- The alert `fetch_historical_flood_alerts` builds from `sampleEvent`. -/
def sampleAlert : Alert := mkAlert sampleEvent "Fulton [GA]"

/-- An alert whose issue timestamp parses to month 6, as it could sit in
a pre-existing cache file for a different month. -/
def juneAlert : Alert where
  event := "Flood Warning"
  areaDesc := "Travis [TX]"
  severity := "Warning"
  certainty := "Observed"
  urgency := "Past"
  onset := some "2023-06-01T00:00:00Z"
  geometry := none
  issue_timestamp := some "2023-06-01T00:00:00Z"
  area_sq_miles := 0

/-! ### Helper lemmas -/

theorem lookup_insert_self (m : CacheMap) (k : String) (v : Option Val) :
    lookupCache (insertCache m k v) k = some v := by
  simp [insertCache, lookupCache]

theorem haversineA_self (lat lon : ℝ) : haversineA lat lon lat lon = 0 := by
  simp [haversineA, radians]

theorem haversine_self (lat lon : ℝ) : haversine lat lon lat lon = 0 := by
  simp [haversine, haversineA_self]

theorem haversineA_comm (a b c d : ℝ) :
    haversineA a b c d = haversineA c d a b := by
  unfold haversineA radians
  rw [show (a - c) * (Real.pi / 180) / 2 = -((c - a) * (Real.pi / 180) / 2) by ring,
    show (b - d) * (Real.pi / 180) / 2 = -((d - b) * (Real.pi / 180) / 2) by ring,
    Real.sin_neg, Real.sin_neg]
  ring

theorem haversine_comm (a b c d : ℝ) :
    haversine a b c d = haversine c d a b := by
  unfold haversine
  rw [haversineA_comm]

theorem find_aux_of_ge (lat lon : ℝ) (l : List Station) (minD : ℝ)
    (best : Option String) (h : ∀ s ∈ l, minD ≤ hdist lat lon s) :
    find_nearest_aux lat lon l minD best = best := by
  induction l generalizing minD best with
  | nil => rfl
  | cons s rest ih =>
    rw [find_nearest_aux, if_neg (not_lt.mpr (h s (List.mem_cons_self s rest)))]
    exact ih minD best (fun t ht => h t (List.mem_cons_of_mem s ht))

theorem find_aux_min (lat lon : ℝ) (l : List Station) (minD : ℝ)
    (best : Option String) (h : ∃ s ∈ l, hdist lat lon s < minD) :
    ∃ pre s post, l = pre ++ s :: post ∧ hdist lat lon s < minD ∧
      (∀ t ∈ l, hdist lat lon s ≤ hdist lat lon t) ∧
      (∀ t ∈ pre, hdist lat lon s < hdist lat lon t) ∧
      find_nearest_aux lat lon l minD best = some s.id := by
  induction l generalizing minD best with
  | nil =>
    obtain ⟨s, hs, _⟩ := h
    exact absurd hs (List.not_mem_nil s)
  | cons s0 rest ih =>
    by_cases h0 : hdist lat lon s0 < minD
    · by_cases hr : ∃ t ∈ rest, hdist lat lon t < hdist lat lon s0
      · obtain ⟨pre, s, post, heq, hlt, hmin, hpre, hres⟩ :=
          ih (hdist lat lon s0) (some s0.id) hr
        refine ⟨s0 :: pre, s, post, by simp [heq], lt_trans hlt h0, ?_, ?_, ?_⟩
        · intro t ht
          rcases List.mem_cons.mp ht with rfl | ht'
          · exact le_of_lt hlt
          · exact hmin t ht'
        · intro t ht
          rcases List.mem_cons.mp ht with rfl | ht'
          · exact hlt
          · exact hpre t ht'
        · rw [find_nearest_aux, if_pos h0]
          exact hres
      · push_neg at hr
        refine ⟨[], s0, rest, rfl, h0, ?_, ?_, ?_⟩
        · intro t ht
          rcases List.mem_cons.mp ht with rfl | ht'
          · exact le_refl _
          · exact hr t ht'
        · intro t ht
          exact absurd ht (List.not_mem_nil t)
        · rw [find_nearest_aux, if_pos h0]
          exact find_aux_of_ge lat lon rest (hdist lat lon s0) (some s0.id) hr
    · have h' : ∃ t ∈ rest, hdist lat lon t < minD := by
        obtain ⟨t, ht, hlt⟩ := h
        rcases List.mem_cons.mp ht with rfl | ht'
        · exact absurd hlt h0
        · exact ⟨t, ht', hlt⟩
      obtain ⟨pre, s, post, heq, hlt, hmin, hpre, hres⟩ := ih minD best h'
      have hge : minD ≤ hdist lat lon s0 := not_lt.mp h0
      refine ⟨s0 :: pre, s, post, by simp [heq], hlt, ?_, ?_, ?_⟩
      · intro t ht
        rcases List.mem_cons.mp ht with rfl | ht'
        · exact le_of_lt (lt_of_lt_of_le hlt hge)
        · exact hmin t ht'
      · intro t ht
        rcases List.mem_cons.mp ht with rfl | ht'
        · exact lt_of_lt_of_le hlt hge
        · exact hpre t ht'
      · rw [find_nearest_aux, if_neg h0]
        exact hres

theorem processEvent_month (m : ℕ) (t : Option String) (e : IEMEvent)
    (a : Alert) (h : processEvent m t e = some a) :
    ∃ s d, a.issue_timestamp = some s ∧ parseDate (s.take 10) = some d ∧
      d.month = m := by
  simp only [processEvent] at h
  split at h
  · simp at h
  next istr hi =>
    split at h
    · simp at h
    next d hd =>
      split at h
      · simp at h
      next hm =>
        push_neg at hm
        split at h
        next =>
          obtain rfl : mkAlert e (e.locations.getD "") = a := by simpa using h
          exact ⟨istr, d, by simpa [mkAlert] using hi, hd, hm⟩
        next st =>
          split at h
          · simp at h
          · obtain rfl : mkAlert e (e.locations.getD "") = a := by simpa using h
            exact ⟨istr, d, by simpa [mkAlert] using hi, hd, hm⟩

/-! ### Claim theorems -/

/-- Claim C1: for each of the three enrichment fetchers (precipitation
keyed by lat/lon rounded to 4 decimals plus ISO date, elevation keyed
by lat/lon rounded to 4 decimals, gage height keyed by station id plus
ISO date), if the fetcher's key is present in the loaded cache mapping
— including when the stored value is null — the call returns the
stored value and issues no external HTTP request. -/
theorem claim_C1 (lat lon : ℚ) (d dg : Date) (cp ce cg : CacheMap)
    (v1 v2 v3 : Option Val) (s : String)
    (p1 p2 : PrecipResp) (e1 e2 : ElevResp) (g1 g2 : GageResp) :
    (lookupCache cp (precip_key lat lon d) = some v1 →
      get_precipitation lat lon d cp p1 p2 = (v1, cp, 0)) ∧
    (lookupCache ce (elev_key lat lon) = some v2 →
      get_elevation lat lon ce e1 e2 = (v2, ce, 0)) ∧
    (s ≠ "" → lookupCache cg (gage_key s dg) = some v3 →
      get_usgs_gage_height (some s) dg cg g1 g2 = (v3, cg, 0)) := by
  refine ⟨fun h => ?_, fun h => ?_, fun hs h => ?_⟩
  · simp [get_precipitation, h]
  · simp [get_elevation, h]
  · simp [get_usgs_gage_height, isFalsy, hs, h]

/-- Witness for C1 at concrete inputs, each cache holding its key with
a stored null (respectively a stored value for elevation). -/
theorem claim_C1_witness :
    get_precipitation 0 0 ⟨2023, 5, 1⟩ [(precip_key 0 0 ⟨2023, 5, 1⟩, none)]
        .exn .exn = (none, [(precip_key 0 0 ⟨2023, 5, 1⟩, none)], 0) ∧
    get_elevation 0 0 [(elev_key 0 0, some 150)] .exn .exn =
      (some 150, [(elev_key 0 0, some 150)], 0) ∧
    get_usgs_gage_height (some "08158000") ⟨2023, 5, 1⟩
        [(gage_key "08158000" ⟨2023, 5, 1⟩, none)] .exn .exn =
      (none, [(gage_key "08158000" ⟨2023, 5, 1⟩, none)], 0) :=
  ⟨(claim_C1 0 0 ⟨2023, 5, 1⟩ ⟨2023, 5, 1⟩ [(precip_key 0 0 ⟨2023, 5, 1⟩, none)]
      [(elev_key 0 0, some 150)] [(gage_key "08158000" ⟨2023, 5, 1⟩, none)]
      none (some 150) none "08158000" .exn .exn .exn .exn .exn .exn).1 rfl,
   (claim_C1 0 0 ⟨2023, 5, 1⟩ ⟨2023, 5, 1⟩ [(precip_key 0 0 ⟨2023, 5, 1⟩, none)]
      [(elev_key 0 0, some 150)] [(gage_key "08158000" ⟨2023, 5, 1⟩, none)]
      none (some 150) none "08158000" .exn .exn .exn .exn .exn .exn).2.1 rfl,
   (claim_C1 0 0 ⟨2023, 5, 1⟩ ⟨2023, 5, 1⟩ [(precip_key 0 0 ⟨2023, 5, 1⟩, none)]
      [(elev_key 0 0, some 150)] [(gage_key "08158000" ⟨2023, 5, 1⟩, none)]
      none (some 150) none "08158000" .exn .exn .exn .exn .exn .exn).2.2
      (by decide) rfl⟩

/-- Claim C9: a 200 precipitation response whose `"results"` list is
empty (or absent, which `.get("results", [])` defaults to the same
empty list) returns and caches the present value 0, not the absent
value. -/
theorem claim_C9 (lat lon : ℚ) (d : Date) (cache : CacheMap) (r2 : PrecipResp)
    (h : lookupCache cache (precip_key lat lon d) = none) :
    get_precipitation lat lon d cache (.resp 200 (some [])) r2 =
      (some 0, insertCache cache (precip_key lat lon d) (some 0), 1) ∧
    lookupCache (insertCache cache (precip_key lat lon d) (some 0))
      (precip_key lat lon d) = some (some 0) := by
  constructor
  · simp [get_precipitation, h, precipFinish, listSum]
  · exact lookup_insert_self cache (precip_key lat lon d) (some 0)

/-- Witness for C9 on an empty starting cache. -/
theorem claim_C9_witness :
    get_precipitation 30 (-97) ⟨2023, 5, 10⟩ [] (.resp 200 (some [])) .exn =
      (some 0, insertCache [] (precip_key 30 (-97) ⟨2023, 5, 10⟩) (some 0), 1) ∧
    lookupCache (insertCache [] (precip_key 30 (-97) ⟨2023, 5, 10⟩) (some 0))
      (precip_key 30 (-97) ⟨2023, 5, 10⟩) = some (some 0) :=
  claim_C9 30 (-97) ⟨2023, 5, 10⟩ [] .exn rfl

/-- Counterexample to claim C5 as stated: a gage-height call on an
uncached key that fails with a non-429 HTTP error returns absent but
does *not* store null under the key (the early `return None` at
flood_dataset.py line 235 skips the cache write at line 241), so an
identical second call issues another external request instead of being
answered from the cache. -/
theorem claim_C5_counterexample :
    get_usgs_gage_height (some "08158000") ⟨2023, 5, 10⟩ [] .errHTTP .errHTTP =
      (none, [], 1) ∧
    lookupCache [] (gage_key "08158000" ⟨2023, 5, 10⟩) = none ∧
    (get_usgs_gage_height (some "08158000") ⟨2023, 5, 10⟩ [] .errHTTP .errHTTP).2.2
      ≠ 0 := by
  refine ⟨rfl, rfl, by decide⟩

/-- Claim C5 as amended: on an uncached key every failing call returns
absent, but null is stored only when an HTTP response was received and
dispatched on — for gage height a successfully parsed response with no
value (any HTTP error or exception, including a failed 429 retry,
returns absent without caching); for precipitation and elevation a
final non-200 status (including a second 429), while a transport
exception or an unusable 200 body returns absent without caching.  In
the null-caching cases a subsequent identical call is answered from
the cache with no external request. -/
theorem claim_C5_amended (lat lon : ℚ) (d dg : Date) (cp ce cg : CacheMap)
    (s : String) (b b2 : Option (List Val)) (eb eb2 : ElevBody) (c : ℕ)
    (pr2 pr3 pr4 : PrecipResp) (er2 er3 er4 : ElevResp) (gr2 gr3 gr4 : GageResp)
    (hs : s ≠ "")
    (hp : lookupCache cp (precip_key lat lon d) = none)
    (he : lookupCache ce (elev_key lat lon) = none)
    (hg : lookupCache cg (gage_key s dg) = none) :
    (get_usgs_gage_height (some s) dg cg (.ok []) gr2 =
        (none, insertCache cg (gage_key s dg) none, 1) ∧
      get_usgs_gage_height (some s) dg (insertCache cg (gage_key s dg) none)
        gr3 gr4 = (none, insertCache cg (gage_key s dg) none, 0)) ∧
    (get_usgs_gage_height (some s) dg cg .errHTTP gr2 = (none, cg, 1) ∧
      get_usgs_gage_height (some s) dg cg .exn gr2 = (none, cg, 1) ∧
      get_usgs_gage_height (some s) dg cg .err429 .err429 = (none, cg, 2) ∧
      get_usgs_gage_height (some s) dg cg .err429 .errHTTP = (none, cg, 2) ∧
      get_usgs_gage_height (some s) dg cg .err429 .exn = (none, cg, 2)) ∧
    ((c ≠ 200 → c ≠ 429 →
        get_precipitation lat lon d cp (.resp c b) pr2 =
          (none, insertCache cp (precip_key lat lon d) none, 1)) ∧
      (c ≠ 200 →
        get_precipitation lat lon d cp (.resp 429 b) (.resp c b2) =
          (none, insertCache cp (precip_key lat lon d) none, 2)) ∧
      get_precipitation lat lon d (insertCache cp (precip_key lat lon d) none)
        pr3 pr4 = (none, insertCache cp (precip_key lat lon d) none, 0) ∧
      get_precipitation lat lon d cp .exn pr2 = (none, cp, 1) ∧
      get_precipitation lat lon d cp (.resp 429 b) .exn = (none, cp, 2) ∧
      get_precipitation lat lon d cp (.resp 200 none) pr2 = (none, cp, 1)) ∧
    ((c ≠ 200 → c ≠ 429 →
        get_elevation lat lon ce (.resp c eb) er2 =
          (none, insertCache ce (elev_key lat lon) none, 1)) ∧
      (c ≠ 200 →
        get_elevation lat lon ce (.resp 429 eb) (.resp c eb2) =
          (none, insertCache ce (elev_key lat lon) none, 2)) ∧
      get_elevation lat lon (insertCache ce (elev_key lat lon) none) er3 er4 =
        (none, insertCache ce (elev_key lat lon) none, 0) ∧
      get_elevation lat lon ce .exn er2 = (none, ce, 1) ∧
      get_elevation lat lon ce (.resp 429 eb) .exn = (none, ce, 2) ∧
      get_elevation lat lon ce (.resp 200 .other) er2 = (none, ce, 1) ∧
      get_elevation lat lon ce (.resp 200 .badJson) er2 = (none, ce, 1)) := by
  have hfalse : isFalsy (some s) = false := by simp [isFalsy, hs]
  refine ⟨⟨?_, ?_⟩, ⟨?_, ?_, ?_, ?_, ?_⟩, ⟨?_, ?_, ?_, ?_, ?_, ?_⟩,
    ⟨?_, ?_, ?_, ?_, ?_, ?_, ?_⟩⟩
  · simp [get_usgs_gage_height, hfalse, hg, headValue]
  · simp [get_usgs_gage_height, hfalse, lookup_insert_self]
  · simp [get_usgs_gage_height, hfalse, hg]
  · simp [get_usgs_gage_height, hfalse, hg]
  · simp [get_usgs_gage_height, hfalse, hg]
  · simp [get_usgs_gage_height, hfalse, hg]
  · simp [get_usgs_gage_height, hfalse, hg]
  · intro hc hc2
    simp [get_precipitation, hp, precipFinish, hc, hc2]
  · intro hc
    simp [get_precipitation, hp, precipFinish, hc]
  · simp [get_precipitation, lookup_insert_self]
  · simp [get_precipitation, hp]
  · simp [get_precipitation, hp]
  · simp [get_precipitation, hp, precipFinish]
  · intro hc hc2
    simp [get_elevation, he, elevFinish, hc, hc2]
  · intro hc
    simp [get_elevation, he, elevFinish, hc]
  · simp [get_elevation, lookup_insert_self]
  · simp [get_elevation, he]
  · simp [get_elevation, he]
  · simp [get_elevation, he, elevFinish]
  · simp [get_elevation, he, elevFinish]

/-- Witness for the amended C5: the gage-height fetcher caches null
after a parsed-but-empty response, and the following identical call is
a request-free cache hit. -/
theorem claim_C5_amended_witness :
    get_usgs_gage_height (some "08158000") ⟨2023, 5, 10⟩ [] (.ok []) .exn =
      (none, insertCache [] (gage_key "08158000" ⟨2023, 5, 10⟩) none, 1) ∧
    get_usgs_gage_height (some "08158000") ⟨2023, 5, 10⟩
        (insertCache [] (gage_key "08158000" ⟨2023, 5, 10⟩) none) .exn .exn =
      (none, insertCache [] (gage_key "08158000" ⟨2023, 5, 10⟩) none, 0) :=
  (claim_C5_amended 0 0 ⟨2023, 5, 1⟩ ⟨2023, 5, 10⟩ [] [] [] "08158000"
    none none .other .other 500 .exn .exn .exn .exn .exn .exn .exn .exn .exn
    (by decide) rfl rfl rfl).1

/-- Counterexample to claim C3 as stated: the claim quantifies over
every cache state, but a pre-existing per-(year, month) cache file is
returned verbatim (flood_dataset.py lines 366-368), so a cache file for
(2023, 5) holding an alert whose issue timestamp parses to month 6 is
returned unfiltered by `fetch_historical_flood_alerts(2023, 5)`. -/
theorem claim_C3_counterexample :
    fetch_historical_flood_alerts none 2023 5 (.valid [juneAlert])
        (fun _ => (.err, .err)) = .ok ([juneAlert], .valid [juneAlert], 0) ∧
    juneAlert.issue_timestamp = some "2023-06-01T00:00:00Z" ∧
    parseDate (("2023-06-01T00:00:00Z").take 10) = some ⟨2023, 6, 1⟩ ∧
    (6 : ℕ) ≠ 5 :=
  ⟨rfl, rfl, by decide, by decide⟩

/-- Claim C3 as amended: when the call performs a fresh fetch (no cache
file), every returned alert's issue date — parsed from its first ten
characters as YYYY-MM-DD — has month equal to the month argument, the
filtered list is what gets written to the cache file, and a second call
for the same (year, month) returns that same list verbatim with no
external request; a call answered from a pre-existing cache file
returns the file's contents as they are, so the month property holds
for cache files that `fetch_historical_flood_alerts` itself wrote. -/
theorem claim_C3_amended (target : Option String) (year month : ℕ)
    (oracle : String → IEMResp × IEMResp) (alerts : List Alert)
    (fc : FileContent (List Alert)) (n : ℕ)
    (h : fetch_historical_flood_alerts target year month .missing oracle =
      .ok (alerts, fc, n)) :
    (∀ a ∈ alerts, ∃ s d, a.issue_timestamp = some s ∧
      parseDate (s.take 10) = some d ∧ d.month = month) ∧
    fc = .valid alerts ∧
    (∀ oracle2, fetch_historical_flood_alerts target year month fc oracle2 =
      .ok (alerts, fc, 0)) := by
  simp only [fetch_historical_flood_alerts, Except.ok.injEq, Prod.mk.injEq] at h
  obtain ⟨h1, h2, h3⟩ := h
  subst h1
  subst h2
  refine ⟨?_, rfl, fun oracle2 => rfl⟩
  intro a ha
  obtain ⟨w, hw, ha'⟩ := List.mem_flatMap.mp ha
  obtain ⟨e, he, hpe⟩ := List.mem_filterMap.mp ha'
  exact processEvent_month month target e a hpe

/-- Witness for the amended C3: a fresh Georgia fetch produced
`[sampleAlert]`, whose written cache file then answers a second call
verbatim with no requests. -/
theorem claim_C3_amended_witness :
    fetch_historical_flood_alerts (some "Georgia") 2023 6 (.valid [sampleAlert])
        (fun _ => (.err, .err)) = .ok ([sampleAlert], .valid [sampleAlert], 0) :=
  (claim_C3_amended (some "Georgia") 2023 6 (fun _ => (.ok [sampleEvent], .err))
    [sampleAlert] (.valid [sampleAlert]) 1 rfl).2.2 (fun _ => (.err, .err))

/-- Counterexample to claim C6 as stated: loading the per-(year, month)
alert cache is a bare `json.load` with no exception handling
(flood_dataset.py lines 366-368), so a corrupt alert cache file raises
instead of yielding an empty cache — and the call sits outside any
try/except in `build_dataset`, aborting the run. -/
theorem claim_C6_counterexample :
    fetch_historical_flood_alerts none 2023 5 .corrupt (fun _ => (.err, .err)) =
      .error "json.decoder.JSONDecodeError" := rfl

/-- Claim C6 as amended: for the `load_cache`-backed caches
(precipitation, elevation, gage height) a missing or corrupt backing
file yields an empty cache and no error, and for the per-(year, month)
alert cache a *missing* file leads to a fresh fetch that always
completes without raising; only a corrupt alert cache file raises. -/
theorem claim_C6_amended :
    load_cache .missing = [] ∧ load_cache .corrupt = [] ∧
    (∀ (target : Option String) (year month : ℕ)
      (oracle : String → IEMResp × IEMResp),
      ∃ alerts requests,
        fetch_historical_flood_alerts target year month .missing oracle =
          .ok (alerts, .valid alerts, requests)) :=
  ⟨rfl, rfl, fun _ _ _ _ => ⟨_, _, rfl⟩⟩

/-- Claim C7: a fetch that completes with zero matching alerts still
writes the per-(year, month) cache file containing the empty list, and
a second call for the same (year, month) — whatever the network would
answer — returns the empty list with zero external requests. -/
theorem claim_C7 (target : Option String) (year month : ℕ)
    (oracle : String → IEMResp × IEMResp) (fc : FileContent (List Alert))
    (n : ℕ)
    (h : fetch_historical_flood_alerts target year month .missing oracle =
      .ok ([], fc, n)) :
    fc = .valid [] ∧
    (∀ oracle2, fetch_historical_flood_alerts target year month fc oracle2 =
      .ok ([], .valid [], 0)) := by
  simp only [fetch_historical_flood_alerts, Except.ok.injEq, Prod.mk.injEq] at h
  obtain ⟨h1, h2, h3⟩ := h
  rw [← h2, h1]
  exact ⟨rfl, fun oracle2 => rfl⟩

/-- Witness for C7: all offices fail, so the fresh fetch finds zero
alerts; the written empty cache file then answers a second call with no
requests. -/
theorem claim_C7_witness :
    fetch_historical_flood_alerts (some "Georgia") 2023 1 (.valid [])
        (fun _ => (.err, .err)) = .ok ([], .valid [], 0) :=
  (claim_C7 (some "Georgia") 2023 1 (fun _ => (.err, .err)) (.valid []) 1
    rfl).2 (fun _ => (.err, .err))

/-- Claim C2: `find_nearest_usgs_station` returns absent whenever every
loaded station is at least `MAX_DISTANCE_KM = 25` km away by haversine
distance; otherwise it returns the id of the station at minimum
haversine distance among those strictly closer than 25 km, and when
several stations attain the minimum, the first in list order wins
(every station strictly before the returned one is strictly farther). -/
theorem claim_C2 (stations : List Station) (lat lon : ℝ) :
    ((∀ s ∈ stations, MAX_DISTANCE_KM ≤ hdist lat lon s) →
      find_nearest_usgs_station stations lat lon = none) ∧
    (∀ s0 ∈ stations, hdist lat lon s0 < MAX_DISTANCE_KM →
      ∃ pre s post, stations = pre ++ s :: post ∧
        find_nearest_usgs_station stations lat lon = some s.id ∧
        hdist lat lon s < MAX_DISTANCE_KM ∧
        (∀ t ∈ stations, hdist lat lon s ≤ hdist lat lon t) ∧
        (∀ t ∈ pre, hdist lat lon s < hdist lat lon t)) := by
  constructor
  · intro h
    exact find_aux_of_ge lat lon stations MAX_DISTANCE_KM none h
  · intro s0 hs0 hlt
    obtain ⟨pre, s, post, heq, hl, hmin, hpre, hres⟩ :=
      find_aux_min lat lon stations MAX_DISTANCE_KM none ⟨s0, hs0, hlt⟩
    exact ⟨pre, s, post, heq, hres, hl, hmin, hpre⟩

/-- Witness for C2: a single station at the query point itself (at
haversine distance 0 < 25) is returned. -/
theorem claim_C2_witness :
    find_nearest_usgs_station [⟨"A", 0, 0⟩] 0 0 = some "A" := by
  have h0 : hdist 0 0 ⟨"A", 0, 0⟩ < MAX_DISTANCE_KM := by
    have hz : hdist 0 0 ⟨"A", 0, 0⟩ = 0 := haversine_self 0 0
    rw [hz]
    show (0 : ℝ) < 25
    norm_num
  obtain ⟨pre, s, post, heq, hres, _, _, _⟩ :=
    (claim_C2 [⟨"A", 0, 0⟩] 0 0).2 ⟨"A", 0, 0⟩ (by simp) h0
  cases pre with
  | nil =>
    simp only [List.nil_append] at heq
    injection heq with h1 h2
    rw [hres, ← h1]
  | cons p ps =>
    simp only [List.cons_append] at heq
    injection heq with h1 h2
    simp at h2

/-- Claim C4: a negative record obtained from an alert with centroid
(lat, lon) and onset date d has flood_occurred = 0, coordinates within
±0.5° of the alert's on each axis, and its date — the perturbed date
used for its year/month fields and enrichment calls — is d plus an
integer number of days between 1 and 28 inclusive. -/
theorem claim_C4 (lat lon du dv : ℚ) (d : Date) (k : ℕ)
    (precip elev gage : Option Val) (sid : Option String)
    (h1 : -(1/2) ≤ du) (h2 : du ≤ 1/2) (h3 : -(1/2) ≤ dv) (h4 : dv ≤ 1/2)
    (h5 : 1 ≤ k) (h6 : k ≤ 28) :
    (negative_sample lat lon d du dv k precip elev sid gage).1.flood_occurred
      = 0 ∧
    |(negative_sample lat lon d du dv k precip elev sid gage).1.lat - lat|
      ≤ 1/2 ∧
    |(negative_sample lat lon d du dv k precip elev sid gage).1.lon - lon|
      ≤ 1/2 ∧
    ∃ j, 1 ≤ j ∧ j ≤ 28 ∧
      (negative_sample lat lon d du dv k precip elev sid gage).2 =
        addDays d j := by
  refine ⟨rfl, ?_, ?_, k, h5, h6, rfl⟩
  · simp only [negative_sample]
    rw [add_sub_cancel_left]
    exact abs_le.mpr ⟨h1, h2⟩
  · simp only [negative_sample]
    rw [add_sub_cancel_left]
    exact abs_le.mpr ⟨h3, h4⟩

/-- Witness for C4 at concrete draws du = dv = 0, k = 1. -/
theorem claim_C4_witness :
    (negative_sample 30 (-97) ⟨2023, 5, 10⟩ 0 0 1 none none none
      none).1.flood_occurred = 0 ∧
    |(negative_sample 30 (-97) ⟨2023, 5, 10⟩ 0 0 1 none none none
      none).1.lat - 30| ≤ 1/2 ∧
    |(negative_sample 30 (-97) ⟨2023, 5, 10⟩ 0 0 1 none none none
      none).1.lon - (-97)| ≤ 1/2 ∧
    ∃ j, 1 ≤ j ∧ j ≤ 28 ∧
      (negative_sample 30 (-97) ⟨2023, 5, 10⟩ 0 0 1 none none none none).2 =
        addDays ⟨2023, 5, 10⟩ j :=
  claim_C4 30 (-97) 0 0 ⟨2023, 5, 10⟩ 1 none none none none
    (by norm_num) (by norm_num) (by norm_num) (by norm_num)
    (by decide) (by decide)

/-- Claim C8: haversine of a point with itself is 0, and haversine is
symmetric in its two points. -/
theorem claim_C8 :
    (∀ lat lon : ℝ, haversine lat lon lat lon = 0) ∧
    (∀ lat1 lon1 lat2 lon2 : ℝ,
      haversine lat1 lon1 lat2 lon2 = haversine lat2 lon2 lat1 lon1) :=
  ⟨haversine_self, fun a b c d => haversine_comm a b c d⟩

/-- Claim C10: a negative record's year and month fields equal those of
the perturbed date (its construction never consults the loop's year and
month), a positive record's year and month equal the enclosing loop's;
consequently, concretely, an alert with onset 2023-01-31 in loop month
1 (with the month limit set to 1) yields a negative record with month
2 > 1, and an alert with onset 2023-12-31 in loop year 2023 yields a
negative record with year 2024 > 2023. -/
theorem claim_C10 :
    (∀ (year month : ℕ) (lat lon : ℚ) (alert : Alert) (p e g : Option Val)
      (sid : Option String),
      (positive_record year month lat lon alert p e sid g).year = year ∧
      (positive_record year month lat lon alert p e sid g).month = month) ∧
    (∀ (lat lon du dv : ℚ) (d : Date) (k : ℕ) (p e g : Option Val)
      (sid : Option String),
      (negative_sample lat lon d du dv k p e sid g).1.year =
        ((negative_sample lat lon d du dv k p e sid g).2).year ∧
      (negative_sample lat lon d du dv k p e sid g).1.month =
        ((negative_sample lat lon d du dv k p e sid g).2).month) ∧
    (negative_sample 30 (-97) ⟨2023, 1, 31⟩ 0 0 1 none none none
      none).1.month = 2 ∧
    (negative_sample 30 (-97) ⟨2023, 12, 31⟩ 0 0 1 none none none
      none).1.year = 2024 :=
  ⟨fun _ _ _ _ _ _ _ _ _ => ⟨rfl, rfl⟩,
   fun _ _ _ _ _ _ _ _ _ _ => ⟨rfl, rfl⟩,
   by decide, by decide⟩

end FloodData
